import Mathlib

/-!
Verification of the sign-up form component in `src/src/app/app.ts`:
the username validator, the per-field error-message selectors, and the
submission flow (validation gate, success banner, auto-hide timer, close).
Pure functions of the component are embedded directly; the validators
`required` and `email` and the `submit` driver come from the
`@angular/forms/signals` library (not part of this repository) and are
modelled from the specification where a claim needs them.
-/

/-- A validation failure as produced by the validators and read by the
error selectors: `{ kind: string, message: string }`. -/
structure ValidationError where
  kind : String
  message : String
deriving DecidableEq, Repr

/-- Embeds `/^[a-zA-Z0-9]+$/.test(value)` (app.ts line 36): the string is
one or more ASCII letters or digits. `Char.isAlphanum` is exactly the
ranges a-z, A-Z, 0-9. -/
def matchesUsernameRegex (value : String) : Bool :=
  !value.data.isEmpty && value.data.all Char.isAlphanum

/-- The callback passed to `validate` inside `usernameValidator`
(app.ts lines 27-52): `null` for an empty value, else the format failure
when the regex does not match, else the length failure when the length is
outside [3, 20], else `null`. -/
def usernameValidatorFn (value : String) : Option ValidationError :=
  if value = "" then
    none
  else if !matchesUsernameRegex value then
    some ⟨"usernameInvalid", "Solo debe contener letras y números"⟩
  else if value.length < 3 || value.length > 20 then
    some ⟨"usernameInvalid", "Debe tener entre 3 y 20 caracteres"⟩
  else
    none

/-- The contribution of the custom username validator to the field failure
list: empty when the callback returns `null`, one failure otherwise. -/
def validateUsername (value : String) : List ValidationError :=
  (usernameValidatorFn value).toList

/-- Embeds `getUsernameError` (app.ts lines 99-115): a fixed message when a
failure of kind `required` is found, else the message of the first failure
of kind `usernameInvalid`, else the empty string. -/
def getUsernameError (errors : List ValidationError) : String :=
  match errors.find? (fun e => e.kind == "required") with
  | some _ => "Este campo es obligatorio"
  | none =>
    match errors.find? (fun e => e.kind == "usernameInvalid") with
    | some invalid => invalid.message
    | none => ""

/-- Embeds `getEmailError` (app.ts lines 122-139): a fixed message when a
failure of kind `required` is found, else a fixed message when a failure of
kind `email` is found, else the empty string. -/
def getEmailError (errors : List ValidationError) : String :=
  match errors.find? (fun e => e.kind == "required") with
  | some _ => "El email es obligatorio"
  | none =>
    match errors.find? (fun e => e.kind == "email") with
    | some _ => "Ingrese un email válido"
    | none => ""

/-- Modelled from the spec: the `required` validator of
`@angular/forms/signals` (library code, not under src/): an empty value
yields one failure of kind `required`; its message text is not given by the
spec and is never read by the selectors. -/
def requiredValidator (value : String) : List ValidationError :=
  if value = "" then [⟨"required", "requerido"⟩] else []

/-- Modelled from the spec: the `email` validator of
`@angular/forms/signals` (library code, not under src/): a standard
email-shape check, local part, one `@`, and a domain holding at least one
dot; failure kind `email`. Empty values are left to `required`. -/
def emailValidator (value : String) : List ValidationError :=
  if value = "" then []
  else
    let cs := value.data
    let localPart := cs.takeWhile (fun c => c != '@')
    match cs.dropWhile (fun c => c != '@') with
    | '@' :: domain =>
      if !localPart.isEmpty && !domain.isEmpty &&
          !domain.contains '@' && domain.contains '.' then []
      else [⟨"email", "Formato de email incorrecto"⟩]
    | _ => [⟨"email", "Formato de email incorrecto"⟩]

/-- Failure list of the username field: the schema (app.ts lines 87-92)
applies `required` and the custom validator and merges their results. -/
def usernameErrors (value : String) : List ValidationError :=
  requiredValidator value ++ validateUsername value

/-- Failure list of the email field: `required` and the email-shape
validator merged. -/
def emailErrors (value : String) : List ValidationError :=
  requiredValidator value ++ emailValidator value

/-- The error string the component displays for the username field at a
given value. -/
def displayedUsernameError (value : String) : String :=
  getUsernameError (usernameErrors value)

/-- The error string the component displays for the email field at a given
value. -/
def displayedEmailError (value : String) : String :=
  getEmailError (emailErrors value)

/-- The form data record (app.ts lines 15-18): `{ username, email }`. -/
structure SignUpForm where
  username : String
  email : String
deriving DecidableEq, Repr

/-- Phase of the submission coordinator: `idle`, or `submitting` carrying
the data snapshot read when the async submit handler was invoked. -/
inductive SubmitPhase where
  | idle : SubmitPhase
  | submitting : SignUpForm → SubmitPhase
deriving DecidableEq, Repr

/-- Observable state of the component: the model signal, the touched flag,
the success-alert signal, the last submitted data, the coordinator phase,
the deadlines of pending auto-hide callbacks, and a counter of invocations
of the async submit side effect. -/
structure AppState where
  model : SignUpForm
  touched : Bool
  showSuccessAlert : Bool
  submittedData : Option SignUpForm
  phase : SubmitPhase
  hideTimers : List Nat
  sideEffectCount : Nat
deriving DecidableEq, Repr

/-- Both fields carry an empty failure list. -/
def formValid (m : SignUpForm) : Bool :=
  (usernameErrors m.username).isEmpty && (emailErrors m.email).isEmpty

/-- The auto-hide delay of the success alert (app.ts line 180). -/
def AUTO_HIDE_MS : Nat := 5000

/-- Modelled from the spec: the `submit` driver of `@angular/forms/signals`
(library code, not under src/). A trigger in the idle phase marks the
fields touched and validates both; when all are valid it snapshots the
model, invokes the async side effect once and enters the submitting phase;
when any is invalid it aborts without invoking the side effect. A trigger
while a submission is in flight is ignored (single-flight guard). -/
def onSubmitTrigger (s : AppState) : AppState :=
  match s.phase with
  | SubmitPhase.submitting _ => s
  | SubmitPhase.idle =>
    if formValid s.model then
      { s with touched := true,
               phase := SubmitPhase.submitting s.model,
               sideEffectCount := s.sideEffectCount + 1 }
    else
      { s with touched := true }

/-- The tail of the async submit handler (app.ts lines 157-181), run when
the simulated 500ms delay resolves at time `t`: store the snapshot in
`submittedData`, show the alert, reset the model to empty fields, clear the
touched flag, and schedule the auto-hide callback at `t + 5000`. -/
def onDelayResolve (t : Nat) (s : AppState) : AppState :=
  match s.phase with
  | SubmitPhase.idle => s
  | SubmitPhase.submitting snapshot =>
    { s with
      submittedData := some snapshot,
      showSuccessAlert := true,
      model := ⟨"", ""⟩,
      touched := false,
      hideTimers := s.hideTimers ++ [t + AUTO_HIDE_MS],
      phase := SubmitPhase.idle }

/-- The return value of the async submit handler (app.ts line 182): always
`undefined`, that is, no list of server errors, for every input. -/
def submitHandlerResult (_data : SignUpForm) : Option (List ValidationError) :=
  none

/-- A scheduled auto-hide callback (app.ts lines 178-180) firing at its
deadline `t`: sets `showSuccessAlert` to `false` and is consumed. -/
def fireHideTimer (t : Nat) (s : AppState) : AppState :=
  if t ∈ s.hideTimers then
    { s with showSuccessAlert := false, hideTimers := s.hideTimers.erase t }
  else s

/-- Embeds `closeAlert` (app.ts lines 189-191): sets `showSuccessAlert` to
`false`. The component stores no timeout id and calls no `clearTimeout`, so
nothing else changes, in particular the pending auto-hide deadlines. -/
def closeAlert (s : AppState) : AppState :=
  { s with showSuccessAlert := false }

/-- User input on the username field while no other event runs: mutates
only the model signal. -/
def setUsername (v : String) (s : AppState) : AppState :=
  { s with model := { s.model with username := v } }

/-- Fresh component state over a given model value. -/
def initState (m : SignUpForm) : AppState :=
  { model := m, touched := false, showSuccessAlert := false,
    submittedData := none, phase := SubmitPhase.idle,
    hideTimers := [], sideEffectCount := 0 }

/-- A concrete state with both fields valid, used by witnesses. -/
def demoState : AppState := initState ⟨"validUser1", "user@example.com"⟩

/-- State right after the successful submission of `demoState` resolves at
time 500. -/
def c2AfterSuccess : AppState := onDelayResolve 500 (onSubmitTrigger demoState)

/-- State after the success alert of `c2AfterSuccess` is closed
explicitly. -/
def c2AfterClose : AppState := closeAlert c2AfterSuccess

/-- A concrete state whose username is 26 alphanumeric characters and whose
email is well-formed. -/
def c8State : AppState := initState ⟨"abcdefghijklmnopqrstuvwxyz", "a@b.com"⟩

/-- Helper: a string whose character list is empty is the empty string. -/
theorem str_eq_empty_of_data (s : String) (h : s.data = []) : s = "" := by
  cases s
  simp_all

/-- Helper: a value holding a non-alphanumeric character takes the format
branch of the custom username validator. -/
theorem validateUsername_format (value : String)
    (h : value.data.any (fun c => !c.isAlphanum) = true) :
    validateUsername value =
      [⟨"usernameInvalid", "Solo debe contener letras y números"⟩] := by
  obtain ⟨c, hc, hcp⟩ := List.any_eq_true.1 h
  have hne : value ≠ "" := by
    intro he
    subst he
    simp at hc
  have hall : value.data.all Char.isAlphanum = false := by
    rw [Bool.eq_false_iff]
    intro hx
    have := List.all_eq_true.1 hx c hc
    rw [this] at hcp
    simp at hcp
  have hreg : matchesUsernameRegex value = false := by
    simp [matchesUsernameRegex, hall]
  simp [validateUsername, usernameValidatorFn, hne, hreg]

/-- Helper: a value matching the regex but with length outside [3, 20]
takes the length branch of the custom username validator. -/
theorem validateUsername_length (value : String)
    (hm : matchesUsernameRegex value = true)
    (hl : value.length < 3 ∨ value.length > 20) :
    validateUsername value =
      [⟨"usernameInvalid", "Debe tener entre 3 y 20 caracteres"⟩] := by
  have hne : value ≠ "" := by
    intro he
    subst he
    simp [matchesUsernameRegex] at hm
  have hcond : (value.length < 3 || value.length > 20) = true := by
    rcases hl with h | h <;> simp [h]
  simp [validateUsername, usernameValidatorFn, hne, hm, hcond]

/-- Helper: a value matching the regex with length in [3, 20] passes the
custom username validator. -/
theorem validateUsername_ok (value : String)
    (hm : matchesUsernameRegex value = true)
    (h3 : 3 ≤ value.length) (h20 : value.length ≤ 20) :
    validateUsername value = [] := by
  have hne : value ≠ "" := by
    intro he
    subst he
    simp [matchesUsernameRegex] at hm
  have hcond : (value.length < 3 || value.length > 20) = false := by
    simp
    omega
  simp [validateUsername, usernameValidatorFn, hne, hm, hcond]

/-- Helper: a non-empty string all of whose characters are alphanumeric
matches the username regex. -/
theorem matchesRegex_of_ne_all (value : String) (hne : value ≠ "")
    (hall : value.data.all Char.isAlphanum = true) :
    matchesUsernameRegex value = true := by
  have hd : value.data ≠ [] := fun h => hne (str_eq_empty_of_data value h)
  simp [matchesUsernameRegex, hall, hd]

/-- Helper: when no failure of kind `k` is in the list, the search for `k`
finds nothing. -/
theorem find_kind_eq_none (errs : List ValidationError) (k : String)
    (h : ∀ e ∈ errs, e.kind ≠ k) :
    errs.find? (fun e => e.kind == k) = none := by
  rw [List.find?_eq_none]
  intro e he hb
  exact h e he (by simpa using hb)

/-- Helper: when some failure of kind `k` is in the list, the search for
`k` finds a failure. -/
theorem find_kind_isSome (errs : List ValidationError) (k : String)
    (h : ∃ e ∈ errs, e.kind = k) :
    ∃ f, errs.find? (fun e => e.kind == k) = some f := by
  have hs : (errs.find? (fun e => e.kind == k)).isSome := by
    rw [List.find?_isSome]
    obtain ⟨e, he, hk⟩ := h
    exact ⟨e, he, by simp [hk]⟩
  exact Option.isSome_iff_exists.1 hs

/-- Claim C1: the username validator matches the reference definition. A
value containing a non-alphanumeric character yields exactly one failure of
kind usernameInvalid regardless of length; an alphanumeric value, meaning
one matching the source regex `^[a-zA-Z0-9]+$`, of length < 3 or > 20
yields exactly one failure of kind usernameInvalid; and a non-empty
alphanumeric value of length between 3 and 20 inclusive yields the empty
failure list. -/
theorem C1_usernameValidator_reference (value : String) :
    (value.data.any (fun c => !c.isAlphanum) = true →
      validateUsername value =
        [⟨"usernameInvalid", "Solo debe contener letras y números"⟩]) ∧
    (matchesUsernameRegex value = true →
      (value.length < 3 ∨ value.length > 20) →
      validateUsername value =
        [⟨"usernameInvalid", "Debe tener entre 3 y 20 caracteres"⟩]) ∧
    (value ≠ "" → value.data.all Char.isAlphanum = true →
      3 ≤ value.length → value.length ≤ 20 →
      validateUsername value = []) := by
  refine ⟨validateUsername_format value, validateUsername_length value, ?_⟩
  intro hne hall h3 h20
  exact validateUsername_ok value (matchesRegex_of_ne_all value hne hall) h3 h20

/-- Witness for C1 at the concrete inputs `ab$`, the 26-letter alphabet and
`validUser1`. -/
theorem C1_usernameValidator_reference_witness :
    validateUsername ("ab$") =
      [⟨"usernameInvalid", "Solo debe contener letras y números"⟩] ∧
    validateUsername ("abcdefghijklmnopqrstuvwxyz") =
      [⟨"usernameInvalid", "Debe tener entre 3 y 20 caracteres"⟩] ∧
    validateUsername ("validUser1") = [] :=
  ⟨(C1_usernameValidator_reference ("ab$")).1 (by decide),
   (C1_usernameValidator_reference ("abcdefghijklmnopqrstuvwxyz")).2.1
     (by decide) (by decide),
   (C1_usernameValidator_reference ("validUser1")).2.2
     (by decide) (by decide) (by decide) (by decide)⟩

/-- Claim C6: the format check runs before the length check and only the
first failing rule is reported per call, so a value that is both
non-alphanumeric and outside the length range yields only the format
failure; and the empty value yields no failure from the custom validator at
all. -/
theorem C6_format_before_length (value : String) :
    (value.data.any (fun c => !c.isAlphanum) = true →
      (value.length < 3 ∨ value.length > 20) →
      validateUsername value =
        [⟨"usernameInvalid", "Solo debe contener letras y números"⟩]) ∧
    validateUsername ("") = [] :=
  ⟨fun h _ => validateUsername_format value h, rfl⟩

/-- Witness for C6 at the value `$`, which is both non-alphanumeric and of
length 1 < 3, and reports only the format failure. -/
theorem C6_format_before_length_witness :
    validateUsername ("$") =
      [⟨"usernameInvalid", "Solo debe contener letras y números"⟩] :=
  (C6_format_before_length ("$")).1 (by decide) (by decide)

/-- Claim C7 counterexample: the selectors do not show the message stored
in the failure record for the kinds `email` and `required`; they show fixed
strings instead. -/
theorem C7_selector_counterexample :
    getEmailError [⟨"email", "mensaje del servidor"⟩] ≠
      "mensaje del servidor" ∧
    getUsernameError [⟨"required", "mensaje del servidor"⟩] ≠
      "mensaje del servidor" := by
  refine ⟨by decide, by decide⟩

/-- Claim C7 (amended): each selector picks the first matching kind in the
priority order required > format-specific. When a failure of kind required
is present a fixed required message is shown even when a format failure
coexists; otherwise, for the username field the message of the first
failure of kind usernameInvalid is shown while for the email field a fixed
format message is shown; and when no kind matches the selector returns the
empty string. -/
theorem C7_selector_priority (errs : List ValidationError) :
    ((∃ e ∈ errs, e.kind = "required") →
      getUsernameError errs = "Este campo es obligatorio" ∧
      getEmailError errs = "El email es obligatorio") ∧
    ((∀ e ∈ errs, e.kind ≠ "required") →
      (∀ f, errs.find? (fun e => e.kind == "usernameInvalid") = some f →
        getUsernameError errs = f.message) ∧
      ((∃ e ∈ errs, e.kind = "email") →
        getEmailError errs = "Ingrese un email válido")) ∧
    ((∀ e ∈ errs, e.kind ≠ "required" ∧ e.kind ≠ "usernameInvalid") →
      getUsernameError errs = "") ∧
    ((∀ e ∈ errs, e.kind ≠ "required" ∧ e.kind ≠ "email") →
      getEmailError errs = "") := by
  refine ⟨?_, ?_, ?_, ?_⟩
  · intro h
    obtain ⟨f, hf⟩ := find_kind_isSome errs ("required") h
    constructor <;> simp [getUsernameError, getEmailError, hf]
  · intro h
    have h0 := find_kind_eq_none errs ("required") h
    refine ⟨?_, ?_⟩
    · intro f hf
      simp [getUsernameError, h0, hf]
    · intro he
      obtain ⟨f, hf⟩ := find_kind_isSome errs ("email") he
      simp [getEmailError, h0, hf]
  · intro h
    have h0 := find_kind_eq_none errs ("required") (fun e he => (h e he).1)
    have h1 := find_kind_eq_none errs ("usernameInvalid") (fun e he => (h e he).2)
    simp [getUsernameError, h0, h1]
  · intro h
    have h0 := find_kind_eq_none errs ("required") (fun e he => (h e he).1)
    have h1 := find_kind_eq_none errs ("email") (fun e he => (h e he).2)
    simp [getEmailError, h0, h1]

/-- Witness for C7 on a list holding both a required failure and a format
failure: the fixed required message wins. -/
theorem C7_selector_priority_witness :
    getUsernameError
      [⟨"required", "r"⟩, ⟨"usernameInvalid", "m"⟩] =
      "Este campo es obligatorio" :=
  ((C7_selector_priority [⟨"required", "r"⟩, ⟨"usernameInvalid", "m"⟩]).1
    ⟨⟨"required", "r"⟩, by simp, rfl⟩).1

/-- Claim C3 counterexample: at the inputs of the claim the displayed
strings are the Spanish messages of the code, not the English strings the
claim states. -/
theorem C3_english_messages_counterexample :
    displayedUsernameError ("ab$") ≠ "must contain only letters and numbers" ∧
    displayedEmailError ("") ≠ "this field is required" ∧
    displayedUsernameError ("abcdefghijklmnopqrstuvwxyz") ≠
      "must be between 3 and 20 characters" := by
  refine ⟨by decide, by decide, by decide⟩

/-- Claim C3 (amended): for username `ab$` the displayed username error is
the format message of the code; for the empty email the displayed email
error is the fixed required message of the code; for an alphanumeric
username of 26 characters the displayed username error is the length
message of the code. -/
theorem C3_displayed_messages :
    displayedUsernameError ("ab$") = "Solo debe contener letras y números" ∧
    displayedEmailError ("") = "El email es obligatorio" ∧
    displayedUsernameError ("abcdefghijklmnopqrstuvwxyz") =
      "Debe tener entre 3 y 20 caracteres" := by
  refine ⟨by decide, by decide, by decide⟩

/-- Claim C2 counterexample: after the successful submission of `demoState`
resolves at time 500, the auto-hide deadline 5500 is pending; an explicit
close sets the alert to false immediately, but the deadline is still
pending afterwards and the scheduled callback still fires and is consumed,
so the close does not cancel the auto-hide timer. -/
theorem C2_close_cancel_counterexample :
    c2AfterSuccess.showSuccessAlert = true ∧
    c2AfterSuccess.hideTimers = [5500] ∧
    c2AfterClose.showSuccessAlert = false ∧
    c2AfterClose.hideTimers = [5500] ∧
    fireHideTimer 5500 c2AfterClose ≠ c2AfterClose := by
  refine ⟨by decide, by decide, by decide, by decide, by decide⟩

/-- Claim C2 (amended): when the submission in flight resolves at time `t`,
the alert is shown and an auto-hide callback is pending at deadline
`t + 5000`; firing it makes the alert not visible, so the banner hides
automatically 5000ms later; an explicit close makes the alert not visible
immediately; but the close leaves the pending deadlines unchanged and the
auto-hide callback still fires at its deadline, setting the flag to false
again. -/
theorem C2_autoHide_and_close (s : AppState) (snapshot : SignUpForm) (t : Nat)
    (hph : s.phase = SubmitPhase.submitting snapshot) :
    (onDelayResolve t s).showSuccessAlert = true ∧
    (t + AUTO_HIDE_MS) ∈ (onDelayResolve t s).hideTimers ∧
    (fireHideTimer (t + AUTO_HIDE_MS) (onDelayResolve t s)).showSuccessAlert
      = false ∧
    (closeAlert (onDelayResolve t s)).showSuccessAlert = false ∧
    (closeAlert (onDelayResolve t s)).hideTimers
      = (onDelayResolve t s).hideTimers ∧
    (fireHideTimer (t + AUTO_HIDE_MS)
      (closeAlert (onDelayResolve t s))).showSuccessAlert = false := by
  have hmem : (t + AUTO_HIDE_MS) ∈ (onDelayResolve t s).hideTimers := by
    simp [onDelayResolve, hph]
  have hmem2 :
      (t + AUTO_HIDE_MS) ∈ (closeAlert (onDelayResolve t s)).hideTimers := by
    simpa [closeAlert] using hmem
  refine ⟨by simp [onDelayResolve, hph], hmem, ?_, by simp [closeAlert],
    by simp [closeAlert], ?_⟩
  · simp [fireHideTimer, hmem]
  · simp [fireHideTimer, hmem2]

/-- Witness for C2 (amended) on the concrete run of `demoState` resolving
at time 500. -/
theorem C2_autoHide_and_close_witness :
    (onDelayResolve 500 (onSubmitTrigger demoState)).showSuccessAlert
      = true :=
  (C2_autoHide_and_close (onSubmitTrigger demoState)
    ⟨"validUser1", "user@example.com"⟩ 500 (by decide)).1

/-- Claim C4: single-flight. A submit trigger while a submission is in
flight leaves the state untouched, and from a valid idle state two rapid
triggers invoke the async side effect exactly once: the first trigger
raises the invocation count by one and the second trigger is a no-op. -/
theorem C4_single_flight (s s0 : AppState) (snapshot : SignUpForm)
    (h : s.phase = SubmitPhase.submitting snapshot)
    (h0 : s0.phase = SubmitPhase.idle) (hv : formValid s0.model = true) :
    onSubmitTrigger s = s ∧
    (onSubmitTrigger s0).sideEffectCount = s0.sideEffectCount + 1 ∧
    onSubmitTrigger (onSubmitTrigger s0) = onSubmitTrigger s0 := by
  have h1 : onSubmitTrigger s = s := by
    simp [onSubmitTrigger, h]
  have h2 : onSubmitTrigger s0 =
      { s0 with touched := true,
                phase := SubmitPhase.submitting s0.model,
                sideEffectCount := s0.sideEffectCount + 1 } := by
    simp [onSubmitTrigger, h0, hv]
  refine ⟨h1, by rw [h2], ?_⟩
  rw [h2]
  simp [onSubmitTrigger]

/-- Witness for C4 on the concrete valid state `demoState`: a second rapid
trigger changes nothing. -/
theorem C4_single_flight_witness :
    onSubmitTrigger (onSubmitTrigger demoState) = onSubmitTrigger demoState :=
  (C4_single_flight (onSubmitTrigger demoState) demoState
    ⟨"validUser1", "user@example.com"⟩ (by decide) (by decide)
    (by decide)).2.2

/-- Claim C5: for a submission from a valid idle state, after the async
side effect resolves the stored submitted data is the model snapshot taken
at submit time, the banner is visible, the fields are reset to the empty
string and the touched flag is cleared; an edit of the username while the
submission is in flight does not change the stored snapshot. -/
theorem C5_success_effects (s : AppState) (v : String) (t : Nat)
    (h : s.phase = SubmitPhase.idle) (hv : formValid s.model = true) :
    (onDelayResolve t (onSubmitTrigger s)).submittedData = some s.model ∧
    (onDelayResolve t (onSubmitTrigger s)).showSuccessAlert = true ∧
    (onDelayResolve t (onSubmitTrigger s)).model = ⟨"", ""⟩ ∧
    (onDelayResolve t (onSubmitTrigger s)).touched = false ∧
    (onDelayResolve t (setUsername v (onSubmitTrigger s))).submittedData
      = some s.model := by
  have h2 : onSubmitTrigger s =
      { s with touched := true,
                phase := SubmitPhase.submitting s.model,
                sideEffectCount := s.sideEffectCount + 1 } := by
    simp [onSubmitTrigger, h, hv]
  rw [h2]
  simp [onDelayResolve, setUsername]

/-- Witness for C5 on `demoState`: the submitted data is the snapshot and
the model is reset. -/
theorem C5_success_effects_witness :
    (onDelayResolve 500 (onSubmitTrigger demoState)).submittedData
      = some demoState.model :=
  (C5_success_effects demoState ("edited") 500 (by decide) (by decide)).1

/-- Claim C8: a submit trigger from an idle state with an invalid field
aborts back to idle: the async side effect is not invoked, the model is
unchanged and the touched flag is set so the field errors stay visible. -/
theorem C8_invalid_aborts (s : AppState)
    (h : s.phase = SubmitPhase.idle) (hv : formValid s.model = false) :
    (onSubmitTrigger s).phase = SubmitPhase.idle ∧
    (onSubmitTrigger s).sideEffectCount = s.sideEffectCount ∧
    (onSubmitTrigger s).touched = true ∧
    (onSubmitTrigger s).model = s.model := by
  have h2 : onSubmitTrigger s = { s with touched := true } := by
    simp [onSubmitTrigger, h, hv]
  rw [h2]
  simp [h]

/-- Witness for C8 on the concrete state with a 26-character alphanumeric
username and a well-formed email: the submission is blocked. -/
theorem C8_invalid_aborts_witness :
    (onSubmitTrigger c8State).phase = SubmitPhase.idle ∧
    (onSubmitTrigger c8State).sideEffectCount = c8State.sideEffectCount :=
  ⟨(C8_invalid_aborts c8State (by decide) (by decide)).1,
   (C8_invalid_aborts c8State (by decide) (by decide)).2.1⟩

/-- Claim C9: the simulated remote submit always succeeds: the handler
returns no error list for every input, and a submission in flight always
reaches the success effects when its delay resolves: the banner is shown,
the snapshot is stored and the coordinator returns to idle, never a
failure-display path. -/
theorem C9_always_succeeds (data : SignUpForm) (s : AppState)
    (snapshot : SignUpForm) (t : Nat)
    (h : s.phase = SubmitPhase.submitting snapshot) :
    submitHandlerResult data = none ∧
    (onDelayResolve t s).showSuccessAlert = true ∧
    (onDelayResolve t s).submittedData = some snapshot ∧
    (onDelayResolve t s).phase = SubmitPhase.idle := by
  refine ⟨rfl, ?_, ?_, ?_⟩ <;> simp [onDelayResolve, h]

/-- Witness for C9 on the concrete in-flight submission of `demoState`. -/
theorem C9_always_succeeds_witness :
    (onDelayResolve 500 (onSubmitTrigger demoState)).phase
      = SubmitPhase.idle :=
  (C9_always_succeeds ⟨"a", "b"⟩ (onSubmitTrigger demoState)
    ⟨"validUser1", "user@example.com"⟩ 500 (by decide)).2.2.2

/-- Claim C10: closing the success banner modifies only the banner-visible
flag: for every state, after `closeAlert` the flag is false while the model
values, the touched flag, the last submitted data, the coordinator phase,
the pending timers and the side-effect counter are all unchanged. -/
theorem C10_closeAlert_frame (s : AppState) :
    (closeAlert s).showSuccessAlert = false ∧
    (closeAlert s).model = s.model ∧
    (closeAlert s).touched = s.touched ∧
    (closeAlert s).submittedData = s.submittedData ∧
    (closeAlert s).phase = s.phase ∧
    (closeAlert s).hideTimers = s.hideTimers ∧
    (closeAlert s).sideEffectCount = s.sideEffectCount := by
  simp [closeAlert]
